import Mathlib

/-!
Shallow embedding of `src/main.c` (ESP32 ADXL313 data logger with ESP-NOW
telemetry) for verifying its natural-language specification.

Modelling conventions:
- The C globals `hourt, mint, sect, dayt, montht, yeart` (all `int`) are a
  `CalendarFields` record of `Int`.
- `struct tm` is a `Tm` record of the six fields the program reads; a failed
  `getLocalTime` call is `none`, a successful one `some t`.
- The accelerometer driver is an external collaborator whose reading on one
  iteration is a `Sensor` record: the `dataReady()` result plus the three axis
  values as rationals (C `float` values; the program only copies and
  `int(...)`-truncates them, so exact rational arithmetic models every value
  the program can see).
- The SD storage backend is an `IoEnv` oracle giving the outcomes of the two
  I/O operations of one `Task1code` iteration: whether the `ofstream` open
  succeeds (`openOk`, checked by the code) and whether the stream write lands
  on the medium (`writeOk`, unchecked by the code).
- Task lifecycle (vTaskSuspend/vTaskResume), the sensor power mode
  (standby()/measureModeOn()) and ESP.restart() are explicit state fields.
- The log file is the list of strings appended to it, in order.
-/

/-- The six fields of `struct tm` that `printLocalTime` reads. -/
structure Tm where
  tm_hour : Int
  tm_min : Int
  tm_sec : Int
  tm_mday : Int
  tm_mon : Int
  tm_year : Int
deriving DecidableEq, Repr

/-- The cached calendar globals `hourt, mint, sect, dayt, montht, yeart` of
`src/main.c` line 44. -/
structure CalendarFields where
  hourt : Int
  mint : Int
  sect : Int
  dayt : Int
  montht : Int
  yeart : Int
deriving DecidableEq, Repr

/-- `printLocalTime` (src/main.c lines 86-96): query the wall clock; on
failure return early leaving the six globals untouched, on success overwrite
all six from the `tm` fields (month shifted by 1, year by 1900). -/
def printLocalTime (q : Option Tm) (s : CalendarFields) : CalendarFields :=
  match q with
  | none => s
  | some t =>
      { hourt := t.tm_hour
        mint := t.tm_min
        sect := t.tm_sec
        dayt := t.tm_mday
        montht := t.tm_mon + 1
        yeart := t.tm_year + 1900 }

/-- Lifecycle state of a FreeRTOS task as driven by vTaskSuspend/vTaskResume. -/
inductive TaskLife where
  | Running
  | Suspended
deriving DecidableEq, Repr

/-- Power mode of the ADXL313 as driven by `standby()` / `measureModeOn()`. -/
inductive SensorMode where
  | Standby
  | Measure
deriving DecidableEq, Repr

/-- State visible to the lifecycle controller `Task2code`: the calendar
globals, the lifecycle states of Task1 (sampler) and Task3 (broadcaster), the
sensor power mode, and whether `ESP.restart()` has been invoked. -/
structure SysState where
  cal : CalendarFields
  task1 : TaskLife
  task3 : TaskLife
  sensorMode : SensorMode
  restarted : Bool
deriving DecidableEq, Repr

/-- Suspend trigger condition (src/main.c line 132): `hourt == 21 && mint == 12 && sect == 10`. -/
def suspendMatch (c : CalendarFields) : Bool :=
  (c.hourt == 21) && (c.mint == 12) && (c.sect == 10)

/-- Resume trigger condition (src/main.c line 140): `hourt == 6 && mint == 12 && sect == 10`. -/
def resumeMatch (c : CalendarFields) : Bool :=
  (c.hourt == 6) && (c.mint == 12) && (c.sect == 10)

/-- Restart trigger condition (src/main.c lines 148-149):
`(hourt == 6 && mint == 16 && sect == 10) || (hourt == 6 && mint == 18 && sect == 10)`. -/
def restartMatch (c : CalendarFields) : Bool :=
  ((c.hourt == 6) && (c.mint == 16) && (c.sect == 10)) ||
  ((c.hourt == 6) && (c.mint == 18) && (c.sect == 10))

/-- The scheduled-suspend block (src/main.c lines 131-137): on an exact match
suspend Task1 and Task3 and put the sensor in standby. -/
def suspendStep (c : CalendarFields) (s : SysState) : SysState :=
  if suspendMatch c then
    { s with task1 := TaskLife.Suspended
             task3 := TaskLife.Suspended
             sensorMode := SensorMode.Standby }
  else s

/-- The scheduled-resume block (src/main.c lines 139-145): on an exact match
resume Task1 and Task3 and put the sensor back in measurement mode. -/
def resumeStep (c : CalendarFields) (s : SysState) : SysState :=
  if resumeMatch c then
    { s with task1 := TaskLife.Running
             task3 := TaskLife.Running
             sensorMode := SensorMode.Measure }
  else s

/-- The scheduled-restart block (src/main.c lines 147-151): on an exact match
of either restart time, call `ESP.restart()`. -/
def restartStep (c : CalendarFields) (s : SysState) : SysState :=
  if restartMatch c then { s with restarted := true } else s

/-- One iteration of the lifecycle controller `Task2code` (src/main.c lines
124-155): call `printLocalTime()` once, then test the suspend, resume and
restart conditions, in that order, against the refreshed calendar globals.
`q` is the result of this iteration's single `getLocalTime` call. -/
def Task2tick (q : Option Tm) (s : SysState) : SysState :=
  let c := printLocalTime q s.cal
  let s1 : SysState := { s with cal := c }
  let s2 : SysState :=
    if suspendMatch c then
      { s1 with task1 := TaskLife.Suspended
                task3 := TaskLife.Suspended
                sensorMode := SensorMode.Standby }
    else s1
  let s3 : SysState :=
    if resumeMatch c then
      { s2 with task1 := TaskLife.Running
                task3 := TaskLife.Running
                sensorMode := SensorMode.Measure }
    else s2
  if restartMatch c then { s3 with restarted := true } else s3

/-- One tick of `Task2code` is exactly the suspend block, then the resume
block, then the restart block, all evaluated at the single calendar snapshot
refreshed at the start of the tick. -/
theorem task2tick_decomp (q : Option Tm) (s : SysState) :
    Task2tick q s =
      restartStep (printLocalTime q s.cal)
        (resumeStep (printLocalTime q s.cal)
          (suspendStep (printLocalTime q s.cal)
            { s with cal := printLocalTime q s.cal })) := by
  simp only [Task2tick, suspendStep, resumeStep, restartStep]

/-- One sensor observation as `Task1code` sees it: the `dataReady()` result,
and the axis values `myAdxl.x`, `myAdxl.y`, `myAdxl.z` that `readAccel()`
would deliver on this iteration (C floats, modelled as rationals). -/
structure Sensor where
  ready : Bool
  x : Rat
  y : Rat
  z : Rat
deriving DecidableEq, Repr

/-- Outcomes of the two storage operations of one `Task1code` iteration: does
the `ofstream` open succeed (this is the `if (!sdout)` check), and does the
`sdout << gpsDate` stream write land on the medium (never checked by the
code). -/
structure IoEnv where
  openOk : Bool
  writeOk : Bool
deriving DecidableEq, Repr

/-- State owned or written by `Task1code`: the shared buffer `data[3]`, the
log file contents (one string per completed append), and whether
`sd.errorHalt` has halted the device. -/
structure Task1State where
  buf : Rat × Rat × Rat
  log : List String
  halted : Bool
deriving DecidableEq, Repr

/-- The C cast `int(f)` applied to a float value: truncation toward zero. -/
def cTrunc (q : Rat) : Int :=
  if 0 ≤ q then ⌊q⌋ else -⌊-q⌋

/-- The timestamp written by `sprintf(Date, "%d/%d/%d %d:%d:%d", yeart,
montht, dayt, hourt, mint, sect)` (src/main.c line 111). -/
def fmtDate (c : CalendarFields) : String :=
  toString c.yeart ++ "/" ++ toString c.montht ++ "/" ++ toString c.dayt ++ " " ++
  toString c.hourt ++ ":" ++ toString c.mint ++ ":" ++ toString c.sect

/-- The log line written by `sprintf(gpsDate, "%s,%d,%d,%d,\n", Date,
int(myAdxl.x), int(myAdxl.y), int(myAdxl.z))` (src/main.c line 112). -/
def recordLine (c : CalendarFields) (x y z : Rat) : String :=
  fmtDate c ++ "," ++ toString (cTrunc x) ++ "," ++ toString (cTrunc y) ++ "," ++
  toString (cTrunc z) ++ "," ++ "\n"

/-- One iteration of the sampler `Task1code` (src/main.c lines 99-122): if
`dataReady()` is false, do nothing this cycle; otherwise read the
accelerometer once, publish the three floats to `data[]`, format the log line
from the cached calendar globals and the truncated axis values, then open the
log file for append — halting the device via `error("open failed")` if the
open fails — and stream the line out (the write outcome is not checked). -/
def Task1iter (sen : Sensor) (env : IoEnv) (cal : CalendarFields)
    (s : Task1State) : Task1State :=
  if sen.ready then
    let published : Task1State := { s with buf := (sen.x, sen.y, sen.z) }
    let line := recordLine cal sen.x sen.y sen.z
    if env.openOk then
      { published with
          log := if env.writeOk then published.log ++ [line] else published.log }
    else
      { published with halted := true }
  else s

/-- The header text `sprintf(header, "%s,%s,%s,%s,", "Date", "X", "Y", "Z")`
followed by `file.print` and `file.println()` (src/main.c lines 223-225);
`println()` with no argument emits a CR-LF pair. -/
def headerLine : String :=
  "Date" ++ "," ++ "X" ++ "," ++ "Y" ++ "," ++ "Z" ++ "," ++ "\r\n"

/-- SD log-file initialization in `setup` (src/main.c lines 221-227): if the
file already exists (`sd.exists(cap)`), its contents are left alone; if not,
it is created and the single header line is written. `existing` is `some` of
the current contents when the file exists, `none` when it does not. -/
def initLogFile (existing : Option (List String)) : List String :=
  match existing with
  | some contents => contents
  | none => [headerLine]

/-- The telemetry packet `struct_message` (src/main.c lines 69-74). -/
structure Packet where
  id : Int
  x : Rat
  y : Rat
  z : Rat
deriving DecidableEq, Repr

/-- Packet construction in one `Task3code` cycle (src/main.c lines 161-164):
`myData.id = 11` and the three axes copied from the shared buffer `data[]`. -/
def Task3packet (buf : Rat × Rat × Rat) : Packet :=
  { id := 11, x := buf.1, y := buf.2.1, z := buf.2.2 }

/-- The one test packet sent at the end of `setup` (src/main.c line 230):
`myData.id = 11; myData.x = 5; myData.y = 5; myData.z = 5;`. -/
def testPacket : Packet :=
  { id := 11, x := 5, y := 5, z := 5 }

/-- Every packet handed to `esp_now_send` during a run: first the test packet
from `setup`, then one packet per broadcast cycle, built from whatever the
shared buffer holds at that cycle (`bufs i`). -/
def sentPackets (bufs : Nat → Rat × Rat × Rat) (n : Nat) : List Packet :=
  testPacket :: (List.range n).map (fun i => Task3packet (bufs i))

/-- The log filename derived once in `setup` by
`sprintf(cap, "/test%d%d%d.csv", yeart, montht, dayt)` (src/main.c line 192). -/
def logFilename (c : CalendarFields) : String :=
  "/test" ++ toString c.yeart ++ toString c.montht ++ toString c.dayt ++ ".csv"

/-- The calendar globals after `n` executions of `printLocalTime()` in the
boot retry loop, where `clock j` is the result of the `j`-th `getLocalTime`
call and `g0` is the globals' value on entry (all zero at C startup). -/
def calAfter (clock : Nat → Option Tm) (g0 : CalendarFields) : Nat → CalendarFields
  | 0 => g0
  | n + 1 => printLocalTime (clock n) (calAfter clock g0 n)

/-- The boot retry loop `retry_time: printLocalTime(); if (yeart == 0) goto
retry_time;` (src/main.c lines 188-190), run for at most `fuel` polls starting
from the `i`-th call with globals `g`. Returns `none` while the loop has not
exited within the allowed polls, and `some (n, g')` when it exits after the
`n`-th poll overall with globals `g'`. -/
def bootLoop (clock : Nat → Option Tm) (g : CalendarFields) (i : Nat) :
    Nat → Option (Nat × CalendarFields)
  | 0 => none
  | fuel + 1 =>
      let g' := printLocalTime (clock i) g
      if g'.yeart = 0 then bootLoop clock g' (i + 1) fuel
      else some (i + 1, g')

/-- What `setup` has produced once (and only once) the retry loop exits:
how many clock polls it took, the log filename derived from the post-loop
globals, and the fact that the three tasks get launched. `none` means the
boot sequence is still inside the retry loop after `fuel` polls: no filename
has been derived and no task has been created. -/
structure BootOutcome where
  polls : Nat
  filename : String
  tasksLaunched : Bool
deriving DecidableEq, Repr

/-- The clock-gated tail of `setup` (src/main.c lines 188-237): everything
after the retry loop — filename derivation through task creation — happens
exactly when the loop exits. -/
def setupClockPhase (clock : Nat → Option Tm) (g0 : CalendarFields)
    (fuel : Nat) : Option BootOutcome :=
  (bootLoop clock g0 0 fuel).map
    (fun r => { polls := r.1, filename := logFilename r.2, tasksLaunched := true })

/-! Helper lemmas about the lifecycle steps. -/

theorem restartStep_task1 (c : CalendarFields) (s : SysState) :
    (restartStep c s).task1 = s.task1 := by
  unfold restartStep; split <;> rfl

theorem restartStep_task3 (c : CalendarFields) (s : SysState) :
    (restartStep c s).task3 = s.task3 := by
  unfold restartStep; split <;> rfl

theorem restartStep_sensorMode (c : CalendarFields) (s : SysState) :
    (restartStep c s).sensorMode = s.sensorMode := by
  unfold restartStep; split <;> rfl

/-! Concrete values used by the witnesses. -/

def sys0 : SysState :=
  { cal := ⟨0, 0, 0, 0, 0, 0⟩
    task1 := TaskLife.Running
    task3 := TaskLife.Running
    sensorMode := SensorMode.Measure
    restarted := false }

def tm616 : Tm :=
  { tm_hour := 6, tm_min := 16, tm_sec := 10, tm_mday := 15, tm_mon := 7, tm_year := 125 }

def tmNoon : Tm :=
  { tm_hour := 12, tm_min := 0, tm_sec := 0, tm_mday := 15, tm_mon := 7, tm_year := 125 }

def tmSus : Tm :=
  { tm_hour := 21, tm_min := 12, tm_sec := 10, tm_mday := 15, tm_mon := 7, tm_year := 125 }

/-- C1: on every `Task2code` tick the three time-triggered transitions are
evaluated in the fixed order Suspend, Resume, Restart, each by exact-match
comparison against the single calendar snapshot refreshed once at the start
of the tick (no mid-iteration re-query), and whenever that snapshot matches
either configured restart time (06:16:10 or 06:18:10) a full system restart
is performed unconditionally. -/
theorem c1_tick_order_and_restart (q : Option Tm) (s : SysState) :
    Task2tick q s =
      restartStep (printLocalTime q s.cal)
        (resumeStep (printLocalTime q s.cal)
          (suspendStep (printLocalTime q s.cal)
            { s with cal := printLocalTime q s.cal })) ∧
    (restartMatch (printLocalTime q s.cal) = true →
      (Task2tick q s).restarted = true) := by
  refine ⟨task2tick_decomp q s, fun h => ?_⟩
  rw [task2tick_decomp q s]
  simp [restartStep, h]

/-- Witness for C1 at a concrete restart-matching snapshot (06:16:10). -/
theorem c1_tick_order_and_restart_witness :
    (Task2tick (some tm616) sys0).restarted = true :=
  (c1_tick_order_and_restart (some tm616) sys0).2 (by decide)

/-- C2: a tick whose refreshed snapshot matches none of the suspend, resume
or restart trigger times leaves the lifecycle states of Task1 and Task3, the
sensor power mode, and the restart flag unchanged. -/
theorem c2_no_trigger_frame (q : Option Tm) (s : SysState)
    (h1 : suspendMatch (printLocalTime q s.cal) = false)
    (h2 : resumeMatch (printLocalTime q s.cal) = false)
    (h3 : restartMatch (printLocalTime q s.cal) = false) :
    (Task2tick q s).task1 = s.task1 ∧
    (Task2tick q s).task3 = s.task3 ∧
    (Task2tick q s).sensorMode = s.sensorMode ∧
    (Task2tick q s).restarted = s.restarted := by
  rw [task2tick_decomp q s]
  simp [suspendStep, resumeStep, restartStep, h1, h2, h3]

/-- Witness for C2 at a concrete non-matching snapshot (12:00:00). -/
theorem c2_no_trigger_frame_witness :
    (Task2tick (some tmNoon) sys0).task1 = sys0.task1 ∧
    (Task2tick (some tmNoon) sys0).task3 = sys0.task3 ∧
    (Task2tick (some tmNoon) sys0).sensorMode = sys0.sensorMode ∧
    (Task2tick (some tmNoon) sys0).restarted = sys0.restarted :=
  c2_no_trigger_frame (some tmNoon) sys0 (by decide) (by decide) (by decide)

/-- C3: when the suspend trigger fires, Task1 and Task3 are both suspended and
the sensor is put in standby in that same tick; when the resume trigger fires,
both are set running and the sensor returns to measurement mode in that same
tick; and on no tick is one task transitioned without the other. -/
theorem c3_coupled_transitions (q : Option Tm) (s : SysState) :
    (suspendMatch (printLocalTime q s.cal) = true →
      (Task2tick q s).task1 = TaskLife.Suspended ∧
      (Task2tick q s).task3 = TaskLife.Suspended ∧
      (Task2tick q s).sensorMode = SensorMode.Standby) ∧
    (resumeMatch (printLocalTime q s.cal) = true →
      (Task2tick q s).task1 = TaskLife.Running ∧
      (Task2tick q s).task3 = TaskLife.Running ∧
      (Task2tick q s).sensorMode = SensorMode.Measure) ∧
    (((Task2tick q s).task1 = s.task1 ∧ (Task2tick q s).task3 = s.task3) ∨
      (Task2tick q s).task1 = (Task2tick q s).task3) := by
  rw [task2tick_decomp q s]
  generalize printLocalTime q s.cal = c
  refine ⟨fun hs => ?_, fun hr => ?_, ?_⟩
  · have hr : resumeMatch c = false := by
      simp only [suspendMatch, Bool.and_eq_true, beq_iff_eq] at hs
      simp only [resumeMatch, Bool.and_eq_true, beq_iff_eq]
      simp only [Bool.eq_false_iff, ne_eq, Bool.and_eq_true, beq_iff_eq]
      omega
    simp [suspendStep, resumeStep, hs, hr, restartStep_task1, restartStep_task3,
      restartStep_sensorMode]
  · have hs : suspendMatch c = false := by
      simp only [resumeMatch, Bool.and_eq_true, beq_iff_eq] at hr
      simp only [suspendMatch, Bool.eq_false_iff, ne_eq, Bool.and_eq_true, beq_iff_eq]
      omega
    simp [suspendStep, resumeStep, hs, hr, restartStep_task1, restartStep_task3,
      restartStep_sensorMode]
  · by_cases hs : suspendMatch c = true
    · by_cases hr : resumeMatch c = true
      · exfalso
        simp only [suspendMatch, Bool.and_eq_true, beq_iff_eq] at hs
        simp only [resumeMatch, Bool.and_eq_true, beq_iff_eq] at hr
        omega
      · right
        simp [suspendStep, resumeStep, hs, hr,
          restartStep_task1, restartStep_task3]
    · by_cases hr : resumeMatch c = true
      · right
        simp [suspendStep, resumeStep, hs, hr,
          restartStep_task1, restartStep_task3]
      · left
        simp [suspendStep, resumeStep, hs, hr,
          restartStep_task1, restartStep_task3]

/-- Witness for C3 at the concrete suspend-matching snapshot 21:12:10. -/
theorem c3_coupled_transitions_witness :
    (Task2tick (some tmSus) sys0).task1 = TaskLife.Suspended ∧
    (Task2tick (some tmSus) sys0).task3 = TaskLife.Suspended ∧
    (Task2tick (some tmSus) sys0).sensorMode = SensorMode.Standby :=
  (c3_coupled_transitions (some tmSus) sys0).1 (by decide)

/-- C10: when the wall-clock query fails, `printLocalTime` leaves all six
cached calendar fields unchanged, so the lifecycle tick that observed the
failure evaluates its three triggers against the previous snapshot. -/
theorem c10_failed_query_frame (c : CalendarFields) (s : SysState) :
    printLocalTime none c = c ∧
    Task2tick none s =
      restartStep s.cal (resumeStep s.cal (suspendStep s.cal s)) := by
  exact ⟨rfl, task2tick_decomp none s⟩

/-! Boot retry loop lemmas. -/

/-- While every poll leaves the year sentinel at 0, the retry loop does not
exit within any finite poll budget. -/
theorem bootLoop_stuck (clock : Nat → Option Tm) (g0 : CalendarFields) :
    ∀ fuel i : Nat,
      (∀ j, j < i + fuel → (calAfter clock g0 (j + 1)).yeart = 0) →
      bootLoop clock (calAfter clock g0 i) i fuel = none := by
  intro fuel
  induction fuel with
  | zero => intro i _; rfl
  | succ n ih =>
      intro i h
      have hy : (printLocalTime (clock i) (calAfter clock g0 i)).yeart = 0 :=
        h i (by omega)
      simp only [bootLoop]
      rw [if_pos hy]
      exact ih (i + 1) (fun j hj => h j (by omega))

/-- If the first `N` polls leave the year sentinel at 0 and poll `N + 1`
produces a nonzero year, the retry loop exits exactly after poll `N + 1`,
with the globals holding that poll's snapshot. -/
theorem bootLoop_exits (clock : Nat → Option Tm) (g0 : CalendarFields) (N : Nat)
    (hzero : ∀ j, j < N → (calAfter clock g0 (j + 1)).yeart = 0)
    (hvalid : (calAfter clock g0 (N + 1)).yeart ≠ 0) :
    ∀ fuel i : Nat, i ≤ N → N < i + fuel →
      bootLoop clock (calAfter clock g0 i) i fuel =
        some (N + 1, calAfter clock g0 (N + 1)) := by
  intro fuel
  induction fuel with
  | zero => intro i h1 h2; omega
  | succ n ih =>
      intro i h1 h2
      simp only [bootLoop]
      rcases Nat.eq_or_lt_of_le h1 with heq | hlt
      · subst heq
        have hy : ¬ (printLocalTime (clock i) (calAfter clock g0 i)).yeart = 0 := hvalid
        rw [if_neg hy]
        rfl
      · have hy : (printLocalTime (clock i) (calAfter clock g0 i)).yeart = 0 :=
          hzero i hlt
        rw [if_pos hy]
        exact ih (i + 1) (by omega) (by omega)

/-! Concrete clocks for the C4 witness: one that yields the year-0 sentinel
for two polls and then a valid year, and one stuck at the sentinel forever. -/

def tmZeroYear : Tm :=
  { tm_hour := 0, tm_min := 0, tm_sec := 0, tm_mday := 1, tm_mon := 0, tm_year := -1900 }

def wClock : Nat → Option Tm :=
  fun j => if j < 2 then some tmZeroYear else some tm616

def wClockStuck : Nat → Option Tm :=
  fun _ => some tmZeroYear

def wCal0 : CalendarFields := ⟨0, 0, 0, 0, 0, 0⟩

/-- C4: the boot sequence does not pass the clock-validity retry loop while
the year sentinel stays 0 — with a budget of at most `N` polls, nothing after
the loop runs (no log filename, no task launch) — and once poll `N + 1`
delivers a valid year the sequence proceeds exactly there, deriving the
filename from that snapshot and launching the tasks; for a clock whose polls
never yield a valid year, the loop never exits for any poll budget. -/
theorem c4_boot_clock_gate (clock : Nat → Option Tm) (g0 : CalendarFields)
    (N fuel : Nat) (clock2 : Nat → Option Tm) (g2 : CalendarFields) (fuel2 : Nat)
    (hzero : ∀ j, j < N → (calAfter clock g0 (j + 1)).yeart = 0)
    (hvalid : (calAfter clock g0 (N + 1)).yeart ≠ 0)
    (hforever : ∀ j, (calAfter clock2 g2 (j + 1)).yeart = 0) :
    (fuel ≤ N → setupClockPhase clock g0 fuel = none) ∧
    (N < fuel →
      setupClockPhase clock g0 fuel =
        some { polls := N + 1
               filename := logFilename (calAfter clock g0 (N + 1))
               tasksLaunched := true }) ∧
    setupClockPhase clock2 g2 fuel2 = none := by
  refine ⟨fun hle => ?_, fun hgt => ?_, ?_⟩
  · have h0 : bootLoop clock g0 0 fuel = none :=
      bootLoop_stuck clock g0 fuel 0 (fun j hj => hzero j (by omega))
    simp [setupClockPhase, h0]
  · have h0 : bootLoop clock g0 0 fuel = some (N + 1, calAfter clock g0 (N + 1)) :=
      bootLoop_exits clock g0 N hzero hvalid fuel 0 (by omega) (by omega)
    simp [setupClockPhase, h0]
  · have h0 : bootLoop clock2 g2 0 fuel2 = none :=
      bootLoop_stuck clock2 g2 fuel2 0 (fun j _ => hforever j)
    simp [setupClockPhase, h0]

/-- Witness for C4: a clock stuck at the sentinel for two polls keeps the
boot sequence in the loop with a budget of two polls, exits at poll three
with a larger budget, and a clock stuck forever never lets it exit. -/
theorem c4_boot_clock_gate_witness :
    setupClockPhase wClock wCal0 2 = none ∧
    setupClockPhase wClock wCal0 5 =
      some { polls := 3
             filename := logFilename (calAfter wClock wCal0 3)
             tasksLaunched := true } ∧
    setupClockPhase wClockStuck wCal0 7 = none :=
  ⟨(c4_boot_clock_gate wClock wCal0 2 2 wClockStuck wCal0 7 (by decide) (by decide)
      (fun _ => rfl)).1 (by decide),
   (c4_boot_clock_gate wClock wCal0 2 5 wClockStuck wCal0 7 (by decide) (by decide)
      (fun _ => rfl)).2.1 (by decide),
   (c4_boot_clock_gate wClock wCal0 2 2 wClockStuck wCal0 7 (by decide) (by decide)
      (fun _ => rfl)).2.2⟩

/-! Concrete sampler values used by witnesses and the C5 counterexample. -/

def senW : Sensor := { ready := true, x := 1, y := 2, z := 3 }

def senNotReady : Sensor := { ready := false, x := 7, y := 8, z := 9 }

def calW : CalendarFields := ⟨6, 30, 0, 15, 8, 2025⟩

def t1s0 : Task1State := { buf := (0, 0, 0), log := [], halted := false }

/-- C5 as stated: on every sampling iteration, either the device halts or the
record reaches the log — a record is silently lost in no failure case. -/
def c5_statement : Prop :=
  ∀ (sen : Sensor) (env : IoEnv) (cal : CalendarFields) (s : Task1State),
    sen.ready = true →
      (Task1iter sen env cal s).halted = true ∨
      (Task1iter sen env cal s).log = s.log ++ [recordLine cal sen.x sen.y sen.z]

/-- C5 counterexample: when the `ofstream` open succeeds but the stream write
fails, the iteration neither halts nor lands the record — the record is lost
silently, because `sdout << gpsDate` is never checked. -/
theorem c5_fatal_io_counterexample : ¬ c5_statement := by
  intro h
  rcases h senW ⟨true, false⟩ calW t1s0 rfl with hh | hh
  · exact absurd hh (by decide)
  · exact absurd hh (by decide)

/-- C5 amended: the open failure path is fatal — the device halts and no
record is dropped silently there — while a write failure after a successful
open goes unchecked: the iteration completes without halting and the record
is silently lost; with both operations succeeding, exactly the formatted
record is appended. -/
theorem c5_open_failure_fatal (sen : Sensor) (env : IoEnv) (cal : CalendarFields)
    (s : Task1State) (hready : sen.ready = true) :
    (env.openOk = false → (Task1iter sen env cal s).halted = true) ∧
    (env.openOk = true → env.writeOk = true →
      (Task1iter sen env cal s).log = s.log ++ [recordLine cal sen.x sen.y sen.z]) ∧
    (env.openOk = true → env.writeOk = false →
      (Task1iter sen env cal s).log = s.log ∧
      (Task1iter sen env cal s).halted = s.halted) := by
  refine ⟨fun h1 => ?_, fun h1 h2 => ?_, fun h1 h2 => ?_⟩
  · simp [Task1iter, hready, h1]
  · simp [Task1iter, hready, h1, h2]
  · simp [Task1iter, hready, h1, h2]

/-- Witness for the amended C5 on the three concrete storage outcomes. -/
theorem c5_open_failure_fatal_witness :
    (Task1iter senW ⟨false, true⟩ calW t1s0).halted = true ∧
    (Task1iter senW ⟨true, true⟩ calW t1s0).log =
      t1s0.log ++ [recordLine calW senW.x senW.y senW.z] ∧
    (Task1iter senW ⟨true, false⟩ calW t1s0).log = t1s0.log :=
  ⟨(c5_open_failure_fatal senW ⟨false, true⟩ calW t1s0 rfl).1 rfl,
   (c5_open_failure_fatal senW ⟨true, true⟩ calW t1s0 rfl).2.1 rfl rfl,
   ((c5_open_failure_fatal senW ⟨true, false⟩ calW t1s0 rfl).2.2 rfl rfl).1⟩

/-- C6: an iteration on which the sensor reports not-ready performs no read,
no buffer write and no log append — the entire sampler state is returned
unchanged, and the iteration falls through to its tick delay without
blocking. -/
theorem c6_not_ready_skips (sen : Sensor) (env : IoEnv) (cal : CalendarFields)
    (s : Task1State) (h : sen.ready = false) :
    Task1iter sen env cal s = s := by
  simp [Task1iter, h]

/-- Witness for C6 on a concrete not-ready observation. -/
theorem c6_not_ready_skips_witness :
    Task1iter senNotReady ⟨true, true⟩ calW t1s0 = t1s0 :=
  c6_not_ready_skips senNotReady ⟨true, true⟩ calW t1s0 rfl

/-- The spec's record-format sentence, transcribed verbatim for comparison
with the code's formatting: one line
`<year>/<month>/<day> <hour>:<minute>:<second>,<x_int>,<y_int>,<z_int>,`
with a trailing newline. -/
def specLogLine (year month day hour minute second xi yi zi : Int) : String :=
  toString year ++ "/" ++ toString month ++ "/" ++ toString day ++ " " ++
  toString hour ++ ":" ++ toString minute ++ ":" ++ toString second ++ "," ++
  toString xi ++ "," ++ toString yi ++ "," ++ toString zi ++ "," ++ "\n"

/-- C7: whatever a sampler iteration appends to the log is exactly one line
in the spec's format — timestamp fields in source order, then the three axis
values truncated to integers, a trailing comma and a newline — and the
`Date,X,Y,Z,` header line is written exactly once, only when the log file is
newly created at boot. -/
theorem c7_log_format (sen : Sensor) (env : IoEnv) (cal : CalendarFields)
    (s : Task1State) :
    ((Task1iter sen env cal s).log = s.log ∨
      (Task1iter sen env cal s).log = s.log ++
        [specLogLine cal.yeart cal.montht cal.dayt cal.hourt cal.mint cal.sect
          (cTrunc sen.x) (cTrunc sen.y) (cTrunc sen.z)]) ∧
    initLogFile none = [headerLine] ∧
    (∀ old, initLogFile (some old) = old) := by
  refine ⟨?_, rfl, fun old => rfl⟩
  by_cases hr : sen.ready = true
  · by_cases ho : env.openOk = true
    · by_cases hw : env.writeOk = true
      · right
        simp [Task1iter, hr, ho, hw, recordLine, specLogLine, fmtDate]
      · left
        simp [Task1iter, hr, ho, hw]
    · left
      simp [Task1iter, hr, ho]
  · left
    simp [Task1iter, hr]

/-- C8: every packet handed to the radio — the boot-time test packet and the
packet of each broadcast cycle, whatever the shared buffer held — carries the
fixed id 11. -/
theorem c8_packet_id_constant (bufs : Nat → Rat × Rat × Rat) (n : Nat)
    (p : Packet) (hp : p ∈ sentPackets bufs n) : p.id = 11 := by
  simp only [sentPackets, List.mem_cons, List.mem_map] at hp
  rcases hp with rfl | ⟨i, _, rfl⟩
  · rfl
  · rfl

/-- Witness for C8: the boot-time test packet of a concrete one-cycle run. -/
theorem c8_packet_id_constant_witness : testPacket.id = 11 :=
  c8_packet_id_constant (fun _ => (0, 0, 0)) 1 testPacket (by simp [sentPackets])

/-- C9: on a sampling iteration, the values published to the shared buffer
come from the single sensor read of that iteration, and any line appended to
the log in the same iteration is formatted from exactly those published
values (their truncations to integers). -/
theorem c9_buffer_log_same_read (sen : Sensor) (env : IoEnv)
    (cal : CalendarFields) (s : Task1State) (h : sen.ready = true) :
    (Task1iter sen env cal s).buf = (sen.x, sen.y, sen.z) ∧
    ((Task1iter sen env cal s).log = s.log ∨
      (Task1iter sen env cal s).log = s.log ++
        [recordLine cal (Task1iter sen env cal s).buf.1
          (Task1iter sen env cal s).buf.2.1
          (Task1iter sen env cal s).buf.2.2]) := by
  have hbuf : (Task1iter sen env cal s).buf = (sen.x, sen.y, sen.z) := by
    by_cases ho : env.openOk = true <;> simp [Task1iter, h, ho]
  refine ⟨hbuf, ?_⟩
  rw [hbuf]
  by_cases ho : env.openOk = true
  · by_cases hw : env.writeOk = true
    · right
      simp [Task1iter, h, ho, hw]
    · left
      simp [Task1iter, h, ho, hw]
  · left
    simp [Task1iter, h, ho]

/-- Witness for C9 on a concrete ready observation with both storage
operations succeeding. -/
theorem c9_buffer_log_same_read_witness :
    (Task1iter senW ⟨true, true⟩ calW t1s0).buf = (senW.x, senW.y, senW.z) ∧
    ((Task1iter senW ⟨true, true⟩ calW t1s0).log = t1s0.log ∨
      (Task1iter senW ⟨true, true⟩ calW t1s0).log = t1s0.log ++
        [recordLine calW (Task1iter senW ⟨true, true⟩ calW t1s0).buf.1
          (Task1iter senW ⟨true, true⟩ calW t1s0).buf.2.1
          (Task1iter senW ⟨true, true⟩ calW t1s0).buf.2.2]) :=
  c9_buffer_log_same_read senW ⟨true, true⟩ calW t1s0 rfl
